import Mathlib

/-!
Verification of the claw-llm-router routing engine against its
natural-language specification.

The TypeScript sources are shallowly embedded: JS strings become `List Char`,
JS numbers become `ℚ` (for the classifier scores) or `ℕ` (for counts, lengths
and timestamps in milliseconds), the process-wide `Map` of pending overrides
becomes an association list with JS `Map` get/set/delete semantics, and
fallible code returns `Except`/`Option`.  `Math.exp`-based confidence
(`sigmoid`) is kept as an explicit function parameter `ℚ → ℚ`: no claim
depends on its numeric values, only on the `max (sigmoid _) 0.85` structure.
`Date.now()` and `Math.floor(Date.now()/1000)` become explicit time
parameters.  JSON parsing in the stream converters is kept as an explicit
parse-function parameter returning the event shape the code inspects.
-/

namespace Claw

/-- JS strings are modelled as lists of characters. -/
abbrev Str := List Char

-- ── Basic string machinery (JS String.prototype methods) ────────────────────

/-- JS `text.startsWith(pat)`: `leadsWith pat text` is true when `pat` is an
initial segment of `text`. -/
def leadsWith : Str → Str → Bool
  | [], _ => true
  | _ :: _, [] => false
  | a :: as, b :: bs => a == b && leadsWith as bs

/-- JS `text.includes(pat)`: substring containment, scanning every start
position of `text`. -/
def containsSub : Str → Str → Bool
  | [], pat => leadsWith pat []
  | c :: rest, pat => leadsWith pat (c :: rest) || containsSub rest pat

/-- The whitespace class used by JS `\s` and `String.prototype.trim`
(restricted to the ASCII whitespace characters; the Unicode spaces JS also
accepts never occur in the embedded inputs). -/
def jsWs (c : Char) : Bool :=
  c == ' ' || c == '\t' || c == '\n' || c == '\r' || c == '\x0b' || c == '\x0c'

/-- JS `s.trim()`. -/
def trimStr (s : Str) : Str :=
  ((s.dropWhile (fun c => jsWs c)).reverse.dropWhile (fun c => jsWs c)).reverse

/-- JS `s.replace(pat, repl)` with a string pattern: replaces only the first
occurrence, scanning left to right; the string is unchanged when the pattern
does not occur. -/
def replaceFirst (pat repl : Str) : Str → Str
  | [] => []
  | c :: rest =>
    if leadsWith pat (c :: rest) then repl ++ (c :: rest).drop pat.length
    else c :: replaceFirst pat repl rest

-- ── Classifier keyword lists (src/classifier.ts) ─────────────────────────────

def CODE_KEYWORDS : List Str :=
  [("function".toList), ("class".toList), ("import".toList), ("def".toList),
   ("select".toList), ("async".toList), ("await".toList), ("const".toList),
   ("let".toList), ("var".toList), ("return".toList), ("```".toList)]

def REASONING_KEYWORDS : List Str :=
  [("prove".toList), ("theorem".toList), ("derive".toList),
   ("step by step".toList), ("chain of thought".toList), ("formally".toList),
   ("mathematical".toList), ("proof".toList), ("logically".toList)]

def SIMPLE_KEYWORDS : List Str :=
  [("what is".toList), ("define".toList), ("translate".toList),
   ("hello".toList), ("yes or no".toList), ("capital of".toList),
   ("how old".toList), ("who is".toList), ("when was".toList)]

def TECHNICAL_KEYWORDS : List Str :=
  [("algorithm".toList), ("optimize".toList), ("architecture".toList),
   ("distributed".toList), ("kubernetes".toList), ("microservice".toList),
   ("database".toList), ("infrastructure".toList)]

def CREATIVE_KEYWORDS : List Str :=
  [("story".toList), ("poem".toList), ("compose".toList),
   ("brainstorm".toList), ("creative".toList), ("imagine".toList),
   ("write a".toList)]

def IMPERATIVE_VERBS : List Str :=
  [("build".toList), ("create".toList), ("implement".toList),
   ("design".toList), ("develop".toList), ("construct".toList),
   ("generate".toList), ("deploy".toList), ("configure".toList),
   ("set up".toList)]

def CONSTRAINT_INDICATORS : List Str :=
  [("under".toList), ("at most".toList), ("at least".toList),
   ("within".toList), ("no more than".toList), ("maximum".toList),
   ("minimum".toList), ("limit".toList), ("budget".toList)]

def OUTPUT_FORMAT_KEYWORDS : List Str :=
  [("json".toList), ("yaml".toList), ("xml".toList), ("table".toList),
   ("csv".toList), ("markdown".toList), ("schema".toList),
   ("format as".toList), ("structured".toList)]

def REFERENCE_KEYWORDS : List Str :=
  [("above".toList), ("below".toList), ("previous".toList),
   ("following".toList), ("the docs".toList), ("the api".toList),
   ("the code".toList), ("earlier".toList), ("attached".toList)]

def NEGATION_KEYWORDS : List Str :=
  [("don\x27t".toList), ("do not".toList), ("avoid".toList),
   ("never".toList), ("without".toList), ("except".toList),
   ("exclude".toList), ("no longer".toList)]

def DOMAIN_SPECIFIC_KEYWORDS : List Str :=
  [("quantum".toList), ("fpga".toList), ("vlsi".toList), ("risc-v".toList),
   ("asic".toList), ("photonics".toList), ("genomics".toList),
   ("proteomics".toList), ("topological".toList), ("homomorphic".toList),
   ("zero-knowledge".toList)]

def AGENTIC_TASK_KEYWORDS : List Str :=
  [("read file".toList), ("look at".toList), ("check the".toList),
   ("open the".toList), ("edit".toList), ("modify".toList),
   ("update the".toList), ("change the".toList), ("write to".toList),
   ("create file".toList), ("execute".toList), ("deploy".toList),
   ("install".toList), ("npm".toList), ("pip".toList), ("compile".toList),
   ("after that".toList), ("once done".toList), ("step 1".toList),
   ("step 2".toList), ("fix".toList), ("debug".toList),
   ("until it works".toList), ("iterate".toList), ("make sure".toList),
   ("verify".toList), ("confirm".toList)]

-- ── The three MULTI_STEP_PATTERNS regexes ────────────────────────────────────

/-- Helper for the regex `first.*then`: searches for `then` with no line
terminator before it (JS `.` does not match a line terminator). -/
def thenBeforeNl : Str → Bool
  | [] => false
  | c :: rest =>
    if leadsWith ("then".toList) (c :: rest) then true
    else if c == '\n' || c == '\r' then false
    else thenBeforeNl rest

/-- The regex `/first.*then/i` applied to already-lowercased text: some
occurrence of `first` is later followed by `then` on the same line. -/
def hasFirstThen : Str → Bool
  | [] => false
  | c :: rest =>
    (leadsWith ("first".toList) (c :: rest) && thenBeforeNl ((c :: rest).drop 5))
      || hasFirstThen rest

/-- Helper for the regex `step\s+\d`: after at least one whitespace character,
zero or more further whitespace, then a digit. -/
def wsThenDigit : Str → Bool
  | [] => false
  | c :: rest =>
    if c.isDigit then true
    else if jsWs c then wsThenDigit rest
    else false

/-- The regex `/step\s+\d/i` applied to already-lowercased text. -/
def hasStepNum : Str → Bool
  | [] => false
  | c :: rest =>
    (leadsWith ("step".toList) (c :: rest) &&
      (match (c :: rest).drop 4 with
       | [] => false
       | d :: ds => jsWs d && wsThenDigit ds))
      || hasStepNum rest

/-- The regex `/\d\.\s/`: a digit, a literal dot, then a whitespace. -/
def hasNumDot : Str → Bool
  | [] => false
  | c :: rest =>
    (c.isDigit &&
      (match rest with
       | d :: e :: _ => d == '.' && jsWs e
       | _ => false))
      || hasNumDot rest

-- ── Classifier dimensions (src/classifier.ts classify) ───────────────────────

inductive Tier where
  | SIMPLE
  | MEDIUM
  | COMPLEX
  | REASONING
deriving DecidableEq, Repr

/-- `userText` in `classify`: the prompt lowercased. -/
def lowerText (p : Str) : Str := p.map Char.toLower

/-- `estimatedTokens = Math.floor(userText.length / 4)`. -/
def estTokens (p : Str) : ℕ := (lowerText p).length / 4

/-- `countKeywords`: the keywords of the list occurring in the text, in list
order. -/
def countKeywords (text : Str) (keywords : List Str) : List Str :=
  keywords.filter (fun kw => containsSub text kw)

/-- Signal text `label (kw1, kw2, kw3)` built from the first `k` ms. -/
def sigLabel (label : Str) (ms : List Str) (k : ℕ) : Str :=
  label ++ (" (".toList) ++ List.intercalate (", ".toList) (ms.take k)
    ++ (")".toList)

/-- `scoreKeywords`: threshold-based dimension score plus optional signal. -/
def scoreKeywords (text : Str) (keywords : List Str)
    (lowThreshold highThreshold : ℕ) (scoreNone scoreLow scoreHigh : ℚ)
    (label : Str) : ℚ × Option Str :=
  let ms := countKeywords text keywords
  if highThreshold ≤ ms.length then
    (scoreHigh, some (sigLabel label ms 3))
  else if lowThreshold ≤ ms.length then
    (scoreLow, some (sigLabel label ms 3))
  else (scoreNone, none)

/-- Dimension 1, token count. -/
def tokenCountDim (p : Str) : ℚ × Option Str :=
  if estTokens p < 50 then
    (-1, some (("short (".toList) ++ (Nat.repr (estTokens p)).toList
      ++ (" tokens)".toList)))
  else if 500 < estTokens p then
    (1, some (("long (".toList) ++ (Nat.repr (estTokens p)).toList
      ++ (" tokens)".toList)))
  else (0, none)

/-- Dimension 2, code presence. -/
def codePresence (p : Str) : ℚ × Option Str :=
  scoreKeywords (lowerText p) CODE_KEYWORDS 1 2 0 (1/2) 1 ("code".toList)

/-- Number of reasoning-marker keyword hits (`reasoningMatchCount`). -/
def reasoningCount (p : Str) : ℕ :=
  (countKeywords (lowerText p) REASONING_KEYWORDS).length

/-- Dimension 3, reasoning markers. -/
def reasoningMarkers (p : Str) : ℚ × Option Str :=
  let ms := countKeywords (lowerText p) REASONING_KEYWORDS
  if 2 ≤ ms.length then (1, some (sigLabel ("reasoning".toList) ms 3))
  else if ms.length = 1 then
    (7/10, some (("reasoning (".toList) ++ ms.headD [] ++ (")".toList)))
  else (0, none)

/-- Dimension 4, technical terms. -/
def technicalTerms (p : Str) : ℚ × Option Str :=
  scoreKeywords (lowerText p) TECHNICAL_KEYWORDS 2 4 0 (1/2) 1
    ("technical".toList)

/-- Dimension 5, creative markers. -/
def creativeMarkers (p : Str) : ℚ × Option Str :=
  scoreKeywords (lowerText p) CREATIVE_KEYWORDS 1 2 0 (1/2) (7/10)
    ("creative".toList)

/-- Dimension 6, simple indicators (the only negative dimension). -/
def simpleIndicators (p : Str) : ℚ × Option Str :=
  scoreKeywords (lowerText p) SIMPLE_KEYWORDS 1 2 0 (-1) (-1)
    ("simple".toList)

/-- `MULTI_STEP_PATTERNS.some((p) => p.test(userText))`. -/
def hasMultiStepB (p : Str) : Bool :=
  hasFirstThen (lowerText p) || hasStepNum (lowerText p)
    || hasNumDot (lowerText p)

/-- Dimension 7, multi-step patterns. -/
def multiStepDim (p : Str) : ℚ × Option Str :=
  if hasMultiStepB p then (1/2, some ("multi-step".toList)) else (0, none)

/-- `qCount`: question marks in the original (non-lowercased) prompt. -/
def qCount (p : Str) : ℕ := p.count '?'

/-- Dimension 8, question complexity. -/
def questionComplexity (p : Str) : ℚ × Option Str :=
  if 3 < qCount p then
    (1/2, some ((Nat.repr (qCount p)).toList ++ (" questions".toList)))
  else (0, none)

/-- Dimension 9, imperative verbs. -/
def imperativeVerbs (p : Str) : ℚ × Option Str :=
  scoreKeywords (lowerText p) IMPERATIVE_VERBS 1 2 0 (3/10) (1/2)
    ("imperative".toList)

/-- Dimension 10, constraint indicators. -/
def constraintCount (p : Str) : ℚ × Option Str :=
  scoreKeywords (lowerText p) CONSTRAINT_INDICATORS 1 3 0 (3/10) (7/10)
    ("constraints".toList)

/-- Dimension 11, output-format keywords. -/
def outputFormatDim (p : Str) : ℚ × Option Str :=
  scoreKeywords (lowerText p) OUTPUT_FORMAT_KEYWORDS 1 2 0 (2/5) (7/10)
    ("format".toList)

/-- Dimension 12, reference complexity. -/
def referenceComplexity (p : Str) : ℚ × Option Str :=
  scoreKeywords (lowerText p) REFERENCE_KEYWORDS 1 2 0 (3/10) (1/2)
    ("references".toList)

/-- Dimension 13, negation complexity. -/
def negationComplexity (p : Str) : ℚ × Option Str :=
  scoreKeywords (lowerText p) NEGATION_KEYWORDS 2 3 0 (3/10) (1/2)
    ("negation".toList)

/-- Dimension 14, domain specificity. -/
def domainSpecificity (p : Str) : ℚ × Option Str :=
  scoreKeywords (lowerText p) DOMAIN_SPECIFIC_KEYWORDS 1 2 0 (1/2) (4/5)
    ("domain-specific".toList)

/-- Dimension 15, agentic task. -/
def agenticTask (p : Str) : ℚ × Option Str :=
  let ms := countKeywords (lowerText p) AGENTIC_TASK_KEYWORDS
  if 4 ≤ ms.length then (1, some (sigLabel ("agentic".toList) ms 3))
  else if 2 ≤ ms.length then
    (1/2, some (sigLabel ("agentic".toList) ms 2))
  else (0, none)

/-- The weighted sum of the 15 dimensions with the hand-tuned WEIGHTS. -/
def weightedScore (p : Str) : ℚ :=
  17/100 * (reasoningMarkers p).1 + 14/100 * (codePresence p).1
    + 11/100 * (simpleIndicators p).1 + 11/100 * (multiStepDim p).1
    + 9/100 * (technicalTerms p).1 + 8/100 * (tokenCountDim p).1
    + 6/100 * (agenticTask p).1 + 5/100 * (creativeMarkers p).1
    + 4/100 * (questionComplexity p).1 + 4/100 * (constraintCount p).1
    + 3/100 * (imperativeVerbs p).1 + 3/100 * (outputFormatDim p).1
    + 2/100 * (domainSpecificity p).1 + 2/100 * (referenceComplexity p).1
    + 1/100 * (negationComplexity p).1

/-- The signal strings pushed by the 15 dimension blocks, in source order. -/
def baseSignals (p : Str) : List Str :=
  ([(tokenCountDim p).2, (codePresence p).2, (reasoningMarkers p).2,
    (technicalTerms p).2, (creativeMarkers p).2, (simpleIndicators p).2,
    (multiStepDim p).2, (questionComplexity p).2, (imperativeVerbs p).2,
    (constraintCount p).2, (outputFormatDim p).2, (referenceComplexity p).2,
    (negationComplexity p).2, (domainSpecificity p).2,
    (agenticTask p).2]).filterMap id

/-- `complexitySignals = techMatches + imperativeMatches + agenticMatches`. -/
def complexitySignals (p : Str) : ℕ :=
  (countKeywords (lowerText p) TECHNICAL_KEYWORDS).length
    + (countKeywords (lowerText p) IMPERATIVE_VERBS).length
    + (countKeywords (lowerText p) AGENTIC_TASK_KEYWORDS).length

def SIMPLE_MEDIUM_BOUNDARY : ℚ := 0
def MEDIUM_COMPLEX_BOUNDARY : ℚ := 3/10
def COMPLEX_REASONING_BOUNDARY : ℚ := 1/2
def MAX_TOKENS_FORCE_COMPLEX : ℕ := 100000

/-- The score-to-tier cascade at the end of `classify`. -/
def boundaryTier (s : ℚ) : Tier :=
  if s < SIMPLE_MEDIUM_BOUNDARY then .SIMPLE
  else if s < MEDIUM_COMPLEX_BOUNDARY then .MEDIUM
  else if s < COMPLEX_REASONING_BOUNDARY then .COMPLEX
  else .REASONING

/-- The distance-to-nearest-boundary computed alongside the tier. -/
def boundaryDist (s : ℚ) : ℚ :=
  if s < SIMPLE_MEDIUM_BOUNDARY then SIMPLE_MEDIUM_BOUNDARY - s
  else if s < MEDIUM_COMPLEX_BOUNDARY then
    min (s - SIMPLE_MEDIUM_BOUNDARY) (MEDIUM_COMPLEX_BOUNDARY - s)
  else if s < COMPLEX_REASONING_BOUNDARY then
    min (s - MEDIUM_COMPLEX_BOUNDARY) (COMPLEX_REASONING_BOUNDARY - s)
  else s - COMPLEX_REASONING_BOUNDARY

structure ClassificationResult where
  tier : Tier
  confidence : ℚ
  score : ℚ
  signals : List Str
  reasoningMatches : ℕ
deriving DecidableEq, Repr

/-- The signal appended by the large-context override. -/
def largeContextSig (p : Str) : Str :=
  ("large context (".toList) ++ (Nat.repr (estTokens p)).toList
    ++ (" tokens) → COMPLEX".toList)

/-- The signal appended by the reasoning override. -/
def reasoningOverrideSig (p : Str) : Str :=
  ("reasoning override (".toList) ++ (Nat.repr (reasoningCount p)).toList
    ++ (" markers)".toList)

/-- The signal appended by the complex override. -/
def complexOverrideSig (p : Str) : Str :=
  ("complex override (".toList) ++ (Nat.repr (complexitySignals p)).toList
    ++ (" signals: ".toList)
    ++ List.intercalate (", ".toList)
        ((countKeywords (lowerText p) TECHNICAL_KEYWORDS
          ++ countKeywords (lowerText p) IMPERATIVE_VERBS).take 3)
    ++ (")".toList)

/-- `classify` from src/classifier.ts.  `sigmoid` stands for the function
`x ↦ 1 / (1 + exp(-12 x))`; it is a parameter because `Math.exp` has no
computable exact counterpart, and every verified property is independent of
its values. -/
def classify (sigmoid : ℚ → ℚ) (p : Str) : ClassificationResult :=
  if MAX_TOKENS_FORCE_COMPLEX < estTokens p then
    { tier := .COMPLEX, confidence := 95/100, score := weightedScore p,
      signals := baseSignals p ++ [largeContextSig p],
      reasoningMatches := reasoningCount p }
  else if 2 ≤ reasoningCount p then
    { tier := .REASONING,
      confidence := max (sigmoid (weightedScore p)) (85/100),
      score := weightedScore p,
      signals := baseSignals p ++ [reasoningOverrideSig p],
      reasoningMatches := reasoningCount p }
  else if 4 ≤ complexitySignals p
      ∧ (hasMultiStepB p = true ∨ 300 < (lowerText p).length) then
    { tier := .COMPLEX,
      confidence := max (sigmoid (weightedScore p)) (85/100),
      score := weightedScore p,
      signals := baseSignals p ++ [complexOverrideSig p],
      reasoningMatches := reasoningCount p }
  else
    { tier := boundaryTier (weightedScore p),
      confidence := sigmoid (boundaryDist (weightedScore p)),
      score := weightedScore p, signals := baseSignals p,
      reasoningMatches := reasoningCount p }

-- ── tierFromModelId and FALLBACK_CHAIN (src/classifier.ts) ───────────────────

/-- The literal `"claw-llm-router/"` stripped by `tierFromModelId`. -/
def routerIdPre : Str := "claw-llm-router/".toList

def tierModelMap : List (Str × Tier) :=
  [(("simple".toList), .SIMPLE), (("medium".toList), .MEDIUM),
   (("complex".toList), .COMPLEX), (("reasoning".toList), .REASONING)]

/-- The normalisation applied by `tierFromModelId`:
`modelId.replace("claw-llm-router/", "").toLowerCase()`. -/
def normalizeModelId (modelId : Str) : Str :=
  (replaceFirst routerIdPre [] modelId).map Char.toLower

/-- `tierFromModelId`: strip the first `"claw-llm-router/"`, lowercase, look
up in the fixed map. -/
def tierFromModelId (modelId : Str) : Option Tier :=
  tierModelMap.lookup (normalizeModelId modelId)

/-- `FALLBACK_CHAIN` from src/classifier.ts. -/
def FALLBACK_CHAIN : Tier → List Tier
  | .SIMPLE => [.SIMPLE, .MEDIUM, .COMPLEX]
  | .MEDIUM => [.MEDIUM, .COMPLEX]
  | .COMPLEX => [.COMPLEX, .REASONING]
  | .REASONING => [.REASONING]

-- ── Pending-override store (src/providers/model-override.ts) ─────────────────

structure OverrideEntry where
  model : Str
  provider : Str
  expires : ℕ
deriving DecidableEq, Repr

/-- The process-wide `Map` keyed by prompt prefix, as an association list
with JS `Map` semantics (at most one binding per key). -/
abbrev OverrideStore := List (Str × OverrideEntry)

/-- JS `Map.get`: the binding of the key, if present. -/
def mapGet (k : Str) : OverrideStore → Option OverrideEntry
  | [] => none
  | e :: rest => if e.1 = k then some e.2 else mapGet k rest

/-- JS `Map.set`: replace the existing binding in place, else append. -/
def mapSet (k : Str) (v : OverrideEntry) : OverrideStore → OverrideStore
  | [] => [(k, v)]
  | e :: rest => if e.1 = k then (k, v) :: rest else e :: mapSet k v rest

/-- JS `Map.delete`. -/
def mapDelete (k : Str) : OverrideStore → OverrideStore
  | [] => []
  | e :: rest => if e.1 = k then rest else e :: mapDelete k rest

/-- `makeKey`: first 500 characters of the prompt. -/
def makeKey (prompt : Str) : Str := prompt.take 500

/-- The 30-second TTL (milliseconds). -/
def OVERRIDE_TTL_MS : ℕ := 30000

/-- `setPendingOverride` at time `now` (ms). -/
def setPendingOverride (now : ℕ) (prompt model provider : Str)
    (store : OverrideStore) : OverrideStore :=
  mapSet (makeKey prompt) ⟨model, provider, now + OVERRIDE_TTL_MS⟩ store

/-- `consumeOverride` at time `now`: looks the key up, deletes it, and
returns the redirect only when the entry has not yet expired.  The returned
pair is (result, updated store). -/
def consumeOverride (now : ℕ) (prompt : Str) (store : OverrideStore) :
    Option (Str × Str) × OverrideStore :=
  match mapGet (makeKey prompt) store with
  | none => (none, store)
  | some entry =>
    let store' := mapDelete (makeKey prompt) store
    if entry.expires < now then (none, store')
    else (some (entry.model, entry.provider), store')

/-- The periodic sweep body (`cleanupInterval`): drop every expired entry. -/
def cleanupExpired (now : ℕ) (store : OverrideStore) : OverrideStore :=
  store.filter (fun e => !(e.2.expires < now))

-- ── Backend spec and provider resolution (src/providers/index.ts) ────────────

/-- `TierModelSpec` (src/tier-config.ts, revision with the OAuth flag used by
the provider registry and its tests). -/
structure TierModelSpec where
  provider : Str
  modelId : Str
  baseUrl : Str
  apiKey : Str
  isAnthropic : Bool
  isOAuth : Bool
deriving DecidableEq, Repr

/-- The four provider strategies of the registry. -/
inductive Provider where
  | gatewayWithOverride
  | gateway
  | anthropic
  | openaiCompatible
deriving DecidableEq, Repr

/-- `resolveProvider` (src/providers/index.ts).  `isRouterPrimary` is the
cached result of `getIsRouterPrimary()`, passed explicitly. -/
def resolveProvider (isRouterPrimary : Bool) (spec : TierModelSpec) :
    Provider :=
  if spec.isOAuth then
    if isRouterPrimary then .gatewayWithOverride else .gateway
  else if spec.isAnthropic then .anthropic
  else .openaiCompatible

/-- Modelled from the spec (section 4.2 Provider Resolver): rule (1) a
delegation-flagged credential picks the delegated strategy, or the
delegated-with-override variant when this service is the platform default
model; rule (2) else the native (Anthropic-style) family picks the native
adapter; rule (3) else the OpenAI-compatible pass-through. -/
def specResolveRules (isDefaultModel : Bool) (spec : TierModelSpec) :
    Provider :=
  if spec.isOAuth then
    if isDefaultModel then .gatewayWithOverride else .gateway
  else if spec.isAnthropic then .anthropic
  else .openaiCompatible

-- ── Missing-credential error and fallback executor ──────────────────────────
-- (providers registry revision with MissingApiKeyError + the proxy loop)

/-- `envVarName` (src/tier-config.ts): `ENV_VAR_OVERRIDES[provider] ??
provider.toUpperCase() + "_API_KEY"`. -/
def envVarName (provider : Str) : Str :=
  if provider = ("google".toList) then ("GEMINI_API_KEY".toList)
  else provider.map Char.toUpper ++ ("_API_KEY".toList)

/-- The errors a per-tier attempt can fail with.  `missingApiKey` mirrors
`MissingApiKeyError` (provider, modelId, envVar fields); every other thrown
`Error` is collapsed into `providerFailure` with its message. -/
inductive CallError where
  | missingApiKey (provider modelId envVar : Str)
  | providerFailure (msg : Str)
deriving DecidableEq, Repr

/-- `callProvider`: fail fast with `MissingApiKeyError` when the resolved
credential is empty (JS falsiness of the empty string), otherwise run the
resolved provider strategy.  The strategy call (network) is the `impl`
parameter. -/
def callProvider (impl : TierModelSpec → Except CallError Unit)
    (spec : TierModelSpec) : Except CallError Unit :=
  if spec.apiKey = [] then
    .error (.missingApiKey spec.provider spec.modelId
      (envVarName spec.provider))
  else impl spec

/-- Outcome of walking the fallback chain. -/
inductive RouteOutcome where
  | success (tier : Tier)
  | exhausted (lastError : Option CallError)
deriving DecidableEq, Repr

/-- The per-request fallback loop of `handleChatCompletion`: try each tier
of the chain with `callProvider`; the first success wins; a thrown error is
recorded as `lastError` and the next tier is tried; an exhausted chain
reports the last error. -/
def runChain (impl : TierModelSpec → Except CallError Unit)
    (config : Tier → TierModelSpec) :
    List Tier → Option CallError → RouteOutcome
  | [], lastError => .exhausted lastError
  | t :: rest, _ =>
    match callProvider impl (config t) with
    | .ok _ => .success t
    | .error e => runChain impl config rest (some e)

-- ── Anthropic response conversion (src/providers/anthropic.ts part) ──────────

structure ContentBlock where
  type : Str
  text : Option Str
deriving DecidableEq, Repr

structure AnthropicUsage where
  input_tokens : ℕ
  output_tokens : ℕ
deriving DecidableEq, Repr

structure AnthropicResponse where
  id : Str
  content : List ContentBlock
  model : Str
  stop_reason : Option Str
  usage : AnthropicUsage
deriving DecidableEq, Repr

/-- `mapStopReason`: end_turn and stop_sequence map to stop, max_tokens maps
to length, anything else (including null) maps to stop. -/
def mapStopReason (reason : Option Str) : Str :=
  if reason = some ("end_turn".toList) then ("stop".toList)
  else if reason = some ("max_tokens".toList) then ("length".toList)
  else if reason = some ("stop_sequence".toList) then ("stop".toList)
  else ("stop".toList)

structure OpenAIMessage where
  role : Str
  content : Str
deriving DecidableEq, Repr

structure OpenAIChoice where
  index : ℕ
  message : OpenAIMessage
  finish_reason : Str
deriving DecidableEq, Repr

structure OpenAIUsage where
  prompt_tokens : ℕ
  completion_tokens : ℕ
  total_tokens : ℕ
deriving DecidableEq, Repr

structure OpenAIResponse where
  id : Str
  object : Str
  created : ℕ
  model : Str
  choices : List OpenAIChoice
  usage : OpenAIUsage
deriving DecidableEq, Repr

/-- The joined text of the `type = "text"` content blocks. -/
def anthropicText (content : List ContentBlock) : Str :=
  ((content.filter (fun c => c.type = ("text".toList))).map
    (fun c => c.text.getD [])).flatten

/-- `toOpenAIResponse` (non-streaming conversion).  `created` stands for
`Math.floor(Date.now() / 1000)`. -/
def toOpenAIResponse (created : ℕ) (a : AnthropicResponse) : OpenAIResponse :=
  { id := ("chatcmpl-".toList) ++ a.id
    object := ("chat.completion".toList)
    created := created
    model := a.model
    choices := [{ index := 0,
                  message := { role := ("assistant".toList),
                               content := anthropicText a.content },
                  finish_reason := mapStopReason a.stop_reason }]
    usage := { prompt_tokens := a.usage.input_tokens,
               completion_tokens := a.usage.output_tokens,
               total_tokens := a.usage.input_tokens + a.usage.output_tokens } }

-- ── Event-stream line handling ───────────────────────────────────────────────

/-- The shape of a parsed Anthropic SSE event, covering exactly the fields
the two stream converters inspect. -/
inductive AEvent where
  | messageStart (id model : Str)
  | contentBlockDelta (deltaType : Str) (text : Option Str)
  | messageDelta (stopReason : Option Str)
  | messageStop
  | errorEvent (error : Str)
  | other (type : Str)
deriving DecidableEq, Repr

/-- What the proxy inline stream handler (`handleAnthropicStream`,
src/proxy.ts) does with a single split line. -/
inductive ProxyLineResult where
  | skip
  | chunk (text : Str)
  | stopAndEnd
  | abort (msg : Str)
deriving DecidableEq, Repr

/-- One line of the proxy inline Anthropic SSE loop.  `parse` stands for
`JSON.parse` restricted to the fields read; a parse failure (`none`) is the
caught-and-ignored exception.  The re-thrown error keeps the
`Anthropic stream error: ` message built in the source. -/
def handleAnthropicLine (parse : Str → Option AEvent) (line : Str) :
    ProxyLineResult :=
  if !(leadsWith ("data: ".toList) line) then .skip
  else
    let json := trimStr (line.drop 6)
    if json = [] then .skip
    else
      match parse json with
      | none => .skip
      | some (.contentBlockDelta deltaType txt) =>
        if deltaType = ("text_delta".toList) ∧ (txt.getD []) ≠ [] then
          .chunk (txt.getD [])
        else .skip
      | some .messageStop => .stopAndEnd
      | some (.errorEvent err) =>
        .abort (("Anthropic stream error: ".toList) ++ err)
      | some _ => .skip

/-- What the provider-module stream converter (`convertAnthropicStream`,
src/providers/anthropic.ts part) does with a single split line. -/
inductive ConvLineResult where
  | skip
  | roleChunk (id model : Str)
  | contentChunk (text : Str)
  | finishChunk (reason : Str)
  | doneMarker
deriving DecidableEq, Repr

/-- One line of `convertAnthropicStream`.  Note the converter has no branch
for the `error` event type: such an event falls through every `else if` and
nothing is emitted or thrown. -/
def convertAnthropicLine (parse : Str → Option AEvent) (line : Str) :
    ConvLineResult :=
  if !(leadsWith ("data: ".toList) line) then .skip
  else
    let dataStr := trimStr (line.drop 6)
    if dataStr = [] ∨ dataStr = ("[DONE]".toList) then .skip
    else
      match parse dataStr with
      | none => .skip
      | some (.messageStart id model) => .roleChunk id model
      | some (.contentBlockDelta deltaType txt) =>
        if deltaType = ("text_delta".toList) then .contentChunk (txt.getD [])
        else .skip
      | some (.messageDelta stopReason) =>
        .finishChunk (mapStopReason stopReason)
      | some .messageStop => .doneMarker
      | some (.errorEvent _) => .skip
      | some (.other _) => .skip

-- ── Prompt extraction (src/proxy.ts extractUserPrompt) ───────────────────────

/-- Message content: a plain string, a list of typed parts, or anything
else (neither string nor array, in which case extraction keeps looking). -/
inductive MsgContent where
  | str (s : Str)
  | parts (ps : List ContentBlock)
  | other
deriving DecidableEq, Repr

structure ChatMessage where
  role : Str
  content : MsgContent
deriving DecidableEq, Repr

/-- The backwards scan of `extractUserPrompt`, written on the reversed
message list: the first user-role message with string or array content
wins; array content joins the text parts with a space. -/
def extractLoop : List ChatMessage → Str
  | [] => []
  | m :: rest =>
    if m.role = ("user".toList) then
      match m.content with
      | .str s => s
      | .parts ps =>
        List.intercalate (" ".toList)
          ((ps.filter (fun c => c.type = ("text".toList))).map
            (fun c => c.text.getD []))
      | .other => extractLoop rest
    else extractLoop rest

/-- `extractUserPrompt`: last-to-first scan for a user message. -/
def extractUserPrompt (messages : List ChatMessage) : Str :=
  extractLoop messages.reverse

-- ── Spec-worded reference definitions and concrete fixtures ─────────────────

/-- Modelled from the spec (section 4.1 tier-boundary mapping, before
overrides): score < 0.0 gives SIMPLE; 0.0 <= score < 0.30 gives MEDIUM;
0.30 <= score < 0.50 gives COMPLEX; score >= 0.50 gives REASONING. -/
def specTierOfScore (s : ℚ) : Tier :=
  if s < 0 then .SIMPLE
  else if s < 30/100 then .MEDIUM
  else if s < 50/100 then .COMPLEX
  else .REASONING

/-- A building block for a prompt that is both reasoning-marker heavy and
past the large-context threshold. -/
def reasonSeed : Str := "prove theorem ".toList

/-- 28572 repetitions of `reasonSeed`: 400008 characters, hence an estimated
token count of 100002 > 100000, while containing the reasoning markers
`prove` and `theorem`. -/
def bigPrompt : Str := (List.replicate 28572 reasonSeed).flatten

/-- A concrete Anthropic SSE error-event payload (braces escaped). -/
def errPayload : Str :=
  "\x7b\"type\":\"error\",\"error\":\x7b\"type\":\"overloaded_error\"\x7d\x7d".toList

/-- The full SSE line carrying `errPayload`. -/
def errLine : Str := ("data: ".toList) ++ errPayload

/-- A concrete parse function recognising exactly `errPayload` as an
explicit Anthropic stream error event. -/
def exParse : Str → Option AEvent :=
  fun s => if s = errPayload then
    some (.errorEvent ("overloaded_error".toList))
  else none

/-- A provider-call stub that always succeeds (used to witness that the
missing-credential error occurs before any provider strategy runs). -/
def exImplOk : TierModelSpec → Except CallError Unit := fun _ => .ok ()

/-- A concrete backend spec whose resolved credential is empty. -/
def exSpecNoKey : TierModelSpec :=
  { provider := ("google".toList), modelId := ("gemini-2.5-flash".toList),
    baseUrl := ("https://example.invalid/v1".toList), apiKey := [],
    isAnthropic := false, isOAuth := false }

/-- A tier configuration resolving every tier to `exSpecNoKey`. -/
def exConfig : Tier → TierModelSpec := fun _ => exSpecNoKey

-- ── Helper lemmas ────────────────────────────────────────────────────────────

theorem leadsWith_self_append (p b : Str) : leadsWith p (p ++ b) = true := by
  induction p with
  | nil => rfl
  | cons c cs ih => simp [leadsWith, ih]

theorem containsSub_nil_pat (t : Str) : containsSub t [] = true := by
  cases t <;> simp [containsSub, leadsWith]

theorem containsSub_of_append (a pat b : Str) :
    containsSub (a ++ pat ++ b) pat = true := by
  induction a with
  | nil =>
    cases pat with
    | nil => simpa using containsSub_nil_pat b
    | cons c cs =>
      simp only [List.nil_append, List.cons_append, containsSub,
        Bool.or_eq_true]
      exact Or.inl (leadsWith_self_append (c :: cs) b)
  | cons x xs ih =>
    simp only [List.cons_append, containsSub, Bool.or_eq_true]
    exact Or.inr ih

theorem two_le_length_filter {α : Type} (p : α → Bool) (a b : α) (l : List α)
    (ha : p a = true) (hb : p b = true) :
    2 ≤ (List.filter p (a :: b :: l)).length := by
  have h : List.filter p (a :: b :: l) = a :: b :: List.filter p l := by
    simp [ha, hb]
  rw [h, List.length_cons, List.length_cons]
  omega

theorem reasonSeed_lower : reasonSeed.map Char.toLower = reasonSeed := by decide

theorem bigPrompt_def : bigPrompt = (List.replicate 28572 reasonSeed).flatten :=
  rfl

theorem replicate_seed_succ : List.replicate (28572 : ℕ) reasonSeed
    = reasonSeed :: List.replicate 28571 reasonSeed := by
  rw [show (28572 : ℕ) = 28571 + 1 from rfl]
  exact List.replicate_succ ..

theorem seed_append_head_prove (X : Str) : reasonSeed ++ X
    = [] ++ ("prove".toList) ++ ((" theorem ".toList) ++ X) := rfl

theorem seed_append_head_theorem (X : Str) : reasonSeed ++ X
    = ("prove ".toList) ++ ("theorem".toList) ++ ((" ".toList) ++ X) := rfl

theorem bigPrompt_lower : lowerText bigPrompt = bigPrompt := by
  rw [bigPrompt_def]
  unfold lowerText
  rw [List.map_flatten, List.map_replicate, reasonSeed_lower]

theorem bigPrompt_length : bigPrompt.length = 400008 := by
  have h14 : reasonSeed.length = 14 := by decide
  rw [bigPrompt_def, List.length_flatten, List.map_replicate, h14,
    List.sum_replicate, smul_eq_mul]

theorem estTokens_eq (p : Str) : estTokens p = (lowerText p).length / 4 := rfl

theorem bigPrompt_estTokens : estTokens bigPrompt = 100002 := by
  rw [estTokens_eq, bigPrompt_lower, bigPrompt_length]

theorem bigPrompt_has_prove : containsSub bigPrompt ("prove".toList) = true := by
  rw [bigPrompt_def, replicate_seed_succ, List.flatten_cons,
    seed_append_head_prove]
  exact containsSub_of_append ..

theorem bigPrompt_has_theorem :
    containsSub bigPrompt ("theorem".toList) = true := by
  rw [bigPrompt_def, replicate_seed_succ, List.flatten_cons,
    seed_append_head_theorem]
  exact containsSub_of_append ..

theorem reasoningCount_eq (p : Str) :
    reasoningCount p
      = (countKeywords (lowerText p) REASONING_KEYWORDS).length := rfl

theorem countKeywords_eq (t : Str) (ks : List Str) :
    countKeywords t ks = ks.filter (fun kw => containsSub t kw) := rfl

theorem bigPrompt_two_markers : 2 ≤ reasoningCount bigPrompt := by
  rw [reasoningCount_eq, bigPrompt_lower, countKeywords_eq]
  rw [show REASONING_KEYWORDS
    = ("prove".toList) :: ("theorem".toList)
      :: [("derive".toList), ("step by step".toList),
          ("chain of thought".toList), ("formally".toList),
          ("mathematical".toList), ("proof".toList), ("logically".toList)]
    from rfl]
  exact two_le_length_filter _ _ _ _ bigPrompt_has_prove bigPrompt_has_theorem

theorem classify_large_context (sigmoid : ℚ → ℚ) (p : Str)
    (h : MAX_TOKENS_FORCE_COMPLEX < estTokens p) :
    (classify sigmoid p).tier = .COMPLEX := by
  unfold classify
  rw [if_pos h]

theorem bigPrompt_forced_complex (sigmoid : ℚ → ℚ) :
    (classify sigmoid bigPrompt).tier = .COMPLEX :=
  classify_large_context sigmoid bigPrompt
    (by rw [bigPrompt_estTokens]; norm_num [MAX_TOKENS_FORCE_COMPLEX])

theorem boundaryTier_eq_specTier (s : ℚ) : boundaryTier s = specTierOfScore s := by
  unfold boundaryTier specTierOfScore SIMPLE_MEDIUM_BOUNDARY
    MEDIUM_COMPLEX_BOUNDARY COMPLEX_REASONING_BOUNDARY
  norm_num

unseal Rat.add Rat.mul Rat.sub Rat.inv in
theorem weightedScore_nil : weightedScore ([] : Str) = -(2/25) := by decide

unseal Rat.add Rat.mul Rat.sub Rat.inv in
theorem boundaryTier_neg : boundaryTier (-(2/25)) = .SIMPLE := by decide

theorem extractLoop_no_user (l : List ChatMessage)
    (h : ∀ m ∈ l, m.role ≠ ("user".toList)) : extractLoop l = [] := by
  induction l with
  | nil => rfl
  | cons m rest ih =>
    simp only [extractLoop]
    rw [if_neg (h m (List.Mem.head _))]
    exact ih (fun m' hm' => h m' (List.Mem.tail _ hm'))

theorem mapGet_mapSet_self (k : Str) (v : OverrideEntry) (st : OverrideStore) :
    mapGet k (mapSet k v st) = some v := by
  induction st with
  | nil => simp [mapSet, mapGet]
  | cons e rest ih =>
    by_cases h : e.1 = k
    · simp [mapSet, mapGet, h]
    · simp [mapSet, mapGet, h, ih]

theorem mapGet_eq_none_of_not_mem (k : Str) (st : OverrideStore)
    (h : k ∉ st.map Prod.fst) : mapGet k st = none := by
  induction st with
  | nil => rfl
  | cons e rest ih =>
    simp only [List.map_cons, List.mem_cons] at h
    push_neg at h
    simp only [mapGet]
    rw [if_neg (fun he => h.1 he.symm)]
    exact ih h.2

theorem mapGet_mapDelete_mapSet (k : Str) (v : OverrideEntry)
    (st : OverrideStore) (hnd : (st.map Prod.fst).Nodup) :
    mapGet k (mapDelete k (mapSet k v st)) = none := by
  induction st with
  | nil => simp [mapSet, mapDelete, mapGet]
  | cons e rest ih =>
    simp only [List.map_cons, List.nodup_cons] at hnd
    by_cases h : e.1 = k
    · simp only [mapSet, if_pos h, mapDelete, if_pos rfl]
      exact mapGet_eq_none_of_not_mem k rest (h ▸ hnd.1)
    · simp only [mapSet, if_neg h, mapDelete, if_neg h, mapGet]
      exact ih hnd.2

theorem tierModelMap_lookup_isSome (k : Str) :
    (tierModelMap.lookup k).isSome
      = decide (k = ("simple".toList) ∨ k = ("medium".toList)
        ∨ k = ("complex".toList) ∨ k = ("reasoning".toList)) := by
  by_cases h1 : k = ("simple".toList)
  · subst h1; decide
  by_cases h2 : k = ("medium".toList)
  · subst h2; decide
  by_cases h3 : k = ("complex".toList)
  · subst h3; decide
  by_cases h4 : k = ("reasoning".toList)
  · subst h4; decide
  have g1 : (k == ("simple".toList)) = false := beq_eq_false_iff_ne.mpr h1
  have g2 : (k == ("medium".toList)) = false := beq_eq_false_iff_ne.mpr h2
  have g3 : (k == ("complex".toList)) = false := beq_eq_false_iff_ne.mpr h3
  have g4 : (k == ("reasoning".toList)) = false := beq_eq_false_iff_ne.mpr h4
  simp only [tierModelMap, List.lookup, g1, g2, g3, g4]
  simp only [Option.isSome_none, eq_comm]
  simp
  exact ⟨h1, h2, h3, h4⟩

-- ── Claim theorems ───────────────────────────────────────────────────────────

/-- Claim C4: the fallback chain is the fixed table chain(SIMPLE) = [SIMPLE,
MEDIUM, COMPLEX], chain(MEDIUM) = [MEDIUM, COMPLEX], chain(COMPLEX) =
[COMPLEX, REASONING], chain(REASONING) = [REASONING] (length 1, no further
escalation), and for every tier the chain starts with that tier itself. -/
theorem fallback_chain_fixed_table :
    FALLBACK_CHAIN .SIMPLE = [.SIMPLE, .MEDIUM, .COMPLEX]
    ∧ FALLBACK_CHAIN .MEDIUM = [.MEDIUM, .COMPLEX]
    ∧ FALLBACK_CHAIN .COMPLEX = [.COMPLEX, .REASONING]
    ∧ FALLBACK_CHAIN .REASONING = [.REASONING]
    ∧ (FALLBACK_CHAIN .REASONING).length = 1
    ∧ ∀ t : Tier, (FALLBACK_CHAIN t).head? = some t := by
  refine ⟨rfl, rfl, rfl, rfl, rfl, ?_⟩
  intro t
  cases t <;> rfl

/-- Claim C2: provider resolution obeys the ordered rules — a
delegation/OAuth-flagged credential yields the delegated gateway strategy,
override-wrapped exactly when this service is the platform default model;
otherwise the Anthropic-native protocol family yields the native adapter;
otherwise the OpenAI-compatible pass-through.  The first conjunct checks
the code against the spec-worded rules as a whole. -/
theorem resolveProvider_ordered_rules :
    (∀ (primary : Bool) (s : TierModelSpec),
      resolveProvider primary s = specResolveRules primary s)
    ∧ (∀ (prov mid url key : Str) (anthro primary : Bool),
      resolveProvider primary ⟨prov, mid, url, key, anthro, true⟩
        = (if primary then Provider.gatewayWithOverride else Provider.gateway))
    ∧ (∀ (prov mid url key : Str) (primary : Bool),
      resolveProvider primary ⟨prov, mid, url, key, true, false⟩
        = Provider.anthropic)
    ∧ (∀ (prov mid url key : Str) (primary : Bool),
      resolveProvider primary ⟨prov, mid, url, key, false, false⟩
        = Provider.openaiCompatible) :=
  ⟨fun _ _ => rfl, fun _ _ _ _ _ _ => rfl, fun _ _ _ _ _ => rfl,
   fun _ _ _ _ _ => rfl⟩

/-- Claim C7: the converted canonical completion copies the native usage
counters (prompt = input, completion = output, total = their sum), has
exactly one choice whose finish_reason maps the native stop reason
(end-of-turn and stop-sequence to "stop", max-tokens to "length"), and in
particular usage {input 10, output 5} gives {10, 5, 15} with "stop" for an
end-of-turn reason. -/
theorem toOpenAIResponse_usage_and_choice :
    (∀ (created : ℕ) (a : AnthropicResponse),
      (toOpenAIResponse created a).usage.prompt_tokens = a.usage.input_tokens
      ∧ (toOpenAIResponse created a).usage.completion_tokens
          = a.usage.output_tokens
      ∧ (toOpenAIResponse created a).usage.total_tokens
          = a.usage.input_tokens + a.usage.output_tokens
      ∧ (toOpenAIResponse created a).choices
          = [⟨0, ⟨("assistant".toList), anthropicText a.content⟩,
              mapStopReason a.stop_reason⟩]
      ∧ (toOpenAIResponse created a).choices.length = 1)
    ∧ mapStopReason (some ("end_turn".toList)) = ("stop".toList)
    ∧ mapStopReason (some ("stop_sequence".toList)) = ("stop".toList)
    ∧ mapStopReason (some ("max_tokens".toList)) = ("length".toList)
    ∧ (toOpenAIResponse 0
        { id := ("msg".toList),
          content := [⟨("text".toList), some ("hi".toList)⟩],
          model := ("claude".toList),
          stop_reason := some ("end_turn".toList),
          usage := ⟨10, 5⟩ }).usage = ⟨10, 5, 15⟩
    ∧ ((toOpenAIResponse 0
        { id := ("msg".toList),
          content := [⟨("text".toList), some ("hi".toList)⟩],
          model := ("claude".toList),
          stop_reason := some ("end_turn".toList),
          usage := ⟨10, 5⟩ }).choices.map (fun c => c.finish_reason))
      = [("stop".toList)] :=
  ⟨fun _ _ => ⟨rfl, rfl, rfl, rfl, rfl⟩, by decide, by decide, by decide,
   by decide, by decide⟩

/-- Claim C9: `tierFromModelId` maps the reserved virtual model identifiers
to their forced tier by case-insensitive literal match (after stripping the
first `claw-llm-router/`), and yields no tier for every other identifier:
in particular `claw-llm-router/simple` maps to SIMPLE and `auto` yields no
forced tier. -/
theorem tierFromModelId_reserved_ids :
    tierFromModelId ("claw-llm-router/simple".toList) = some .SIMPLE
    ∧ tierFromModelId ("claw-llm-router/medium".toList) = some .MEDIUM
    ∧ tierFromModelId ("claw-llm-router/complex".toList) = some .COMPLEX
    ∧ tierFromModelId ("claw-llm-router/reasoning".toList) = some .REASONING
    ∧ tierFromModelId ("claw-llm-router/SIMPLE".toList) = some .SIMPLE
    ∧ tierFromModelId ("REASONING".toList) = some .REASONING
    ∧ tierFromModelId ("simple".toList) = some .SIMPLE
    ∧ tierFromModelId ("auto".toList) = none
    ∧ tierFromModelId ("claw-llm-router/auto".toList) = none
    ∧ ∀ modelId : Str, (tierFromModelId modelId).isSome
        = decide (normalizeModelId modelId = ("simple".toList)
          ∨ normalizeModelId modelId = ("medium".toList)
          ∨ normalizeModelId modelId = ("complex".toList)
          ∨ normalizeModelId modelId = ("reasoning".toList)) :=
  ⟨by decide, by decide, by decide, by decide, by decide, by decide,
   by decide, by decide, by decide,
   fun modelId => tierModelMap_lookup_isSome (normalizeModelId modelId)⟩

/-- Claim C5: an empty resolved credential makes the per-tier attempt fail
with the distinguishable MissingApiKeyError carrying the provider name, the
model id and the expected env-var name, and the fallback loop treats this
like any per-tier failure: the chain continues with the remaining tiers
instead of terminating the request. -/
theorem missing_credential_error_and_fallback
    (impl : TierModelSpec → Except CallError Unit)
    (config : Tier → TierModelSpec) (t : Tier) (rest : List Tier)
    (lastError : Option CallError)
    (h : (config t).apiKey = []) :
    callProvider impl (config t)
        = .error (.missingApiKey (config t).provider (config t).modelId
            (envVarName (config t).provider))
    ∧ runChain impl config (t :: rest) lastError
        = runChain impl config rest
            (some (.missingApiKey (config t).provider (config t).modelId
              (envVarName (config t).provider))) := by
  have hc : callProvider impl (config t)
      = .error (.missingApiKey (config t).provider (config t).modelId
          (envVarName (config t).provider)) := by
    unfold callProvider
    rw [if_pos h]
  refine ⟨hc, ?_⟩
  simp only [runChain, hc]

/-- Witness for C5 at a concrete empty-credential configuration. -/
theorem missing_credential_error_and_fallback_witness :
    callProvider exImplOk (exConfig .SIMPLE)
        = .error (.missingApiKey (exConfig .SIMPLE).provider
            (exConfig .SIMPLE).modelId
            (envVarName (exConfig .SIMPLE).provider))
    ∧ runChain exImplOk exConfig (Tier.SIMPLE :: [Tier.MEDIUM]) none
        = runChain exImplOk exConfig [Tier.MEDIUM]
            (some (.missingApiKey (exConfig .SIMPLE).provider
              (exConfig .SIMPLE).modelId
              (envVarName (exConfig .SIMPLE).provider))) :=
  missing_credential_error_and_fallback exImplOk exConfig .SIMPLE [.MEDIUM]
    none rfl

/-- Claim C1 counterexample: `bigPrompt` contains two reasoning-marker
keywords (prove, theorem) yet `classify` returns COMPLEX, not REASONING,
because the prompt also exceeds the 100,000-token large-context threshold
and that override is evaluated first. -/
theorem two_reasoning_markers_overridden_by_large_context :
    2 ≤ reasoningCount bigPrompt
    ∧ (classify (fun _ => 0) bigPrompt).tier = .COMPLEX
    ∧ ¬((classify (fun _ => 0) bigPrompt).tier = .REASONING) := by
  have hC := bigPrompt_forced_complex (fun _ => 0)
  refine ⟨bigPrompt_two_markers, hC, ?_⟩
  rw [hC]
  decide

/-- Claim C1 (amended): for every prompt containing two or more
reasoning-marker keywords whose estimated token count does not exceed the
100,000 large-context threshold, `classify` returns tier REASONING with
confidence at least 0.85, regardless of the composite score; a prompt that
also exceeds the threshold is instead forced to COMPLEX because the
large-context override is evaluated first. -/
theorem reasoning_override_forces_reasoning (sigmoid : ℚ → ℚ) (p : Str)
    (h1 : estTokens p ≤ MAX_TOKENS_FORCE_COMPLEX)
    (h2 : 2 ≤ reasoningCount p) :
    (classify sigmoid p).tier = .REASONING
    ∧ 85/100 ≤ (classify sigmoid p).confidence := by
  unfold classify
  rw [if_neg (by omega : ¬(MAX_TOKENS_FORCE_COMPLEX < estTokens p)), if_pos h2]
  exact ⟨rfl, le_max_right _ _⟩

/-- Witness for amended C1 at the concrete prompt `prove the theorem`. -/
theorem reasoning_override_forces_reasoning_witness :
    (classify (fun _ => 0) ("prove the theorem".toList)).tier = .REASONING
    ∧ 85/100 ≤ (classify (fun _ => 0) ("prove the theorem".toList)).confidence :=
  reasoning_override_forces_reasoning (fun _ => 0) ("prove the theorem".toList)
    (by decide) (by decide)

/-- Claim C6: when no hard override fires (no large context, fewer than two
reasoning markers, no complex-override condition), the classifier reports
the composite weighted score and maps it to the tier by the fixed
boundaries 0.0, 0.30 and 0.50. -/
theorem boundary_mapping_when_no_override (sigmoid : ℚ → ℚ) (p : Str)
    (h1 : estTokens p ≤ MAX_TOKENS_FORCE_COMPLEX)
    (h2 : reasoningCount p < 2)
    (h3 : ¬(4 ≤ complexitySignals p
      ∧ (hasMultiStepB p = true ∨ 300 < (lowerText p).length))) :
    (classify sigmoid p).score = weightedScore p
    ∧ (classify sigmoid p).tier
        = specTierOfScore ((classify sigmoid p).score) := by
  unfold classify
  rw [if_neg (by omega : ¬(MAX_TOKENS_FORCE_COMPLEX < estTokens p)),
    if_neg (by omega : ¬(2 ≤ reasoningCount p)), if_neg h3]
  exact ⟨rfl, boundaryTier_eq_specTier _⟩

/-- Witness for C6 at the empty prompt. -/
theorem boundary_mapping_when_no_override_witness :
    (classify (fun _ => 0) ("".toList)).score = weightedScore ("".toList)
    ∧ (classify (fun _ => 0) ("".toList)).tier
        = specTierOfScore ((classify (fun _ => 0) ("".toList)).score) :=
  boundary_mapping_when_no_override (fun _ => 0) ("".toList) (by decide)
    (by decide) (by decide)

/-- Claim C10: a message list with no user-role message extracts the empty
prompt, and classifying the empty prompt yields tier SIMPLE with a negative
composite score (the short-prompt token-count dimension contributes its
negative score), so the request is routed to the cheapest tier instead of
being rejected. -/
theorem no_user_message_routes_to_simple (sigmoid : ℚ → ℚ)
    (messages : List ChatMessage)
    (h : ∀ m ∈ messages, m.role ≠ ("user".toList)) :
    extractUserPrompt messages = []
    ∧ (classify sigmoid (extractUserPrompt messages)).tier = .SIMPLE
    ∧ (classify sigmoid (extractUserPrompt messages)).score < 0 := by
  have he : extractUserPrompt messages = [] := by
    unfold extractUserPrompt
    exact extractLoop_no_user _ (fun m hm => h m (List.mem_reverse.mp hm))
  have h1 : ¬(MAX_TOKENS_FORCE_COMPLEX < estTokens ([] : Str)) := by decide
  have h2 : ¬(2 ≤ reasoningCount ([] : Str)) := by decide
  have h3 : ¬(4 ≤ complexitySignals ([] : Str)
      ∧ (hasMultiStepB ([] : Str) = true
        ∨ 300 < (lowerText ([] : Str)).length)) := by decide
  refine ⟨he, ?_, ?_⟩ <;> rw [he] <;> unfold classify <;>
    rw [if_neg h1, if_neg h2, if_neg h3]
  · show boundaryTier (weightedScore []) = .SIMPLE
    rw [weightedScore_nil]
    exact boundaryTier_neg
  · show weightedScore [] < 0
    rw [weightedScore_nil]
    norm_num

/-- Witness for C10 at a single assistant-only message list. -/
theorem no_user_message_routes_to_simple_witness :
    extractUserPrompt [⟨("assistant".toList), .str ("hi".toList)⟩] = []
    ∧ (classify (fun _ => 0)
        (extractUserPrompt [⟨("assistant".toList), .str ("hi".toList)⟩])).tier
        = .SIMPLE
    ∧ (classify (fun _ => 0)
        (extractUserPrompt [⟨("assistant".toList), .str ("hi".toList)⟩])).score
        < 0 :=
  no_user_message_routes_to_simple (fun _ => 0)
    [⟨("assistant".toList), .str ("hi".toList)⟩] (by decide)

/-- Claim C3: setting a pending override for prompt P and consuming it with
the same P before expiry returns exactly the stored model/provider pair;
the second consume returns nothing; and a consume after the TTL has elapsed
returns nothing even though the periodic sweep has not run.  The store is
assumed to have distinct keys (the JS Map invariant). -/
theorem override_consumed_once_and_never_after_expiry (store : OverrideStore)
    (p m pr : Str) (t0 t1 t2 tLate : ℕ)
    (hnd : (store.map Prod.fst).Nodup)
    (h1 : t1 ≤ t0 + OVERRIDE_TTL_MS)
    (hLate : t0 + OVERRIDE_TTL_MS < tLate) :
    (consumeOverride t1 p (setPendingOverride t0 p m pr store)).1
        = some (m, pr)
    ∧ (consumeOverride t2 p
        (consumeOverride t1 p (setPendingOverride t0 p m pr store)).2).1
        = none
    ∧ (consumeOverride tLate p (setPendingOverride t0 p m pr store)).1
        = none := by
  have hget : mapGet (makeKey p)
      (mapSet (makeKey p) ⟨m, pr, t0 + OVERRIDE_TTL_MS⟩ store)
      = some ⟨m, pr, t0 + OVERRIDE_TTL_MS⟩ := mapGet_mapSet_self ..
  have hdel : mapGet (makeKey p)
      (mapDelete (makeKey p)
        (mapSet (makeKey p) ⟨m, pr, t0 + OVERRIDE_TTL_MS⟩ store))
      = none := mapGet_mapDelete_mapSet _ _ _ hnd
  refine ⟨?_, ?_, ?_⟩
  · simp only [consumeOverride, setPendingOverride, hget]
    rw [if_neg (by omega : ¬(t0 + OVERRIDE_TTL_MS < t1))]
  · simp only [consumeOverride, setPendingOverride, hget]
    rw [if_neg (by omega : ¬(t0 + OVERRIDE_TTL_MS < t1))]
    simp only [hdel]
  · simp only [consumeOverride, setPendingOverride, hget]
    rw [if_pos (by omega : t0 + OVERRIDE_TTL_MS < tLate)]

/-- Witness for C3: set at time 0, consume at 10 and 20, late consume at
30001 (TTL is 30000 ms). -/
theorem override_consumed_once_witness :
    (consumeOverride 10 ("p".toList)
        (setPendingOverride 0 ("p".toList) ("m".toList) ("g".toList) [])).1
      = some (("m".toList), ("g".toList))
    ∧ (consumeOverride 20 ("p".toList)
        (consumeOverride 10 ("p".toList)
          (setPendingOverride 0 ("p".toList) ("m".toList) ("g".toList)
            [])).2).1 = none
    ∧ (consumeOverride 30001 ("p".toList)
        (setPendingOverride 0 ("p".toList) ("m".toList) ("g".toList) [])).1
      = none :=
  override_consumed_once_and_never_after_expiry [] ("p".toList) ("m".toList)
    ("g".toList) 0 10 20 30001 (by decide) (by decide) (by decide)

/-- Claim C8 counterexample: the provider-module stream converter
(`convertAnthropicStream`) does not abort on an explicit native error
event — the concrete error-event line is silently skipped (its result type
has no aborting outcome at all), while the proxy inline handler does abort
on the same line. -/
theorem converter_ignores_error_event :
    exParse errPayload = some (.errorEvent ("overloaded_error".toList))
    ∧ convertAnthropicLine exParse errLine = .skip
    ∧ handleAnthropicLine exParse errLine ≠ .skip :=
  ⟨by decide, by decide, by decide⟩

/-- Claim C8 (amended): while converting a native event stream, both
converters silently skip malformed (non-JSON) data lines; the proxy inline
handler aborts on an explicit native error event by raising
`Anthropic stream error: ...`, whereas the provider-module converter
ignores the error event as well, emitting nothing and not aborting. -/
theorem stream_line_handling (parse : Str → Option AEvent) (line : Str)
    (hd : leadsWith ("data: ".toList) line = true)
    (hne : trimStr (line.drop 6) ≠ [])
    (hnd : trimStr (line.drop 6) ≠ ("[DONE]".toList)) :
    (parse (trimStr (line.drop 6)) = none →
      handleAnthropicLine parse line = .skip
      ∧ convertAnthropicLine parse line = .skip)
    ∧ (∀ err, parse (trimStr (line.drop 6)) = some (.errorEvent err) →
      handleAnthropicLine parse line
          = .abort (("Anthropic stream error: ".toList) ++ err)
      ∧ convertAnthropicLine parse line = .skip) := by
  have hd' : leadsWith ['d', 'a', 't', 'a', ':', ' '] line = true := hd
  constructor
  · intro hp
    constructor
    · simp [handleAnthropicLine, hd', hne, hp]
    · simp [convertAnthropicLine, hd', hne, hnd, hp]
  · intro err hp
    constructor
    · simp [handleAnthropicLine, hd', hne, hp]
    · simp [convertAnthropicLine, hd', hne, hnd, hp]

/-- Witness for amended C8 at the concrete error-event line. -/
theorem stream_line_handling_witness :
    handleAnthropicLine exParse errLine
        = .abort (("Anthropic stream error: ".toList)
            ++ ("overloaded_error".toList))
    ∧ convertAnthropicLine exParse errLine = .skip :=
  (stream_line_handling exParse errLine (by decide) (by decide)
    (by decide)).2 ("overloaded_error".toList) (by decide)

end Claw
